import Mathlib

/-!
# Verification of the request authentication guards of `ginger-shared-rs`

This file is a shallow embedding of `src/rocket_utils.rs`: the three request
guards (`ISCClaims`, `APIClaims`, `Claims`) that locate a credential in the
request headers, strip an optional `"Bearer "` scheme marker, look up the
process-wide `JWT_SECRET`, and verify/decode the credential as an HMAC-SHA256
signed JSON Web Token.

Modelling conventions:
* Rust strings are `List Char` (`Str`); `trim_start_matches` and `trim` are
  embedded faithfully (`trimStartMatches` removes every leading occurrence of
  the pattern, exactly as Rust's does).
* The request header map is a list of name/value pairs; header-name matching
  is case-insensitive as in the HTTP layer that Rocket exposes.
* The process environment is a list of name/value pairs; `env::var` is a
  lookup.  The `.expect("JWT_SECRET must be set")` call aborts the evaluation,
  which we model with an explicit `Outcome.panic` result.
* The external `jsonwebtoken` crate is not part of this repository; its
  verification behaviour (`decode` with `Validation::new(Algorithm::HS256)`)
  is modelled from the spec in `jwtDecode`: the already-deserialized token
  carries its declared header algorithm, its JSON payload, and — idealizing
  the MAC as collision-free — the secret that produced its signature.  The
  base64/JSON wire deserialization of the token string is abstracted as a
  `parse : Str → Option Jwt` parameter.
* serde payload decoding into each claims struct is embedded per field:
  required fields must be present with the right JSON type, `Option` fields
  may be absent or `null`.
-/

namespace GingerShared

/-- Characters of a Rust string. -/
abbrev Str := List Char

/-- The character list of a string literal. -/
def chars (s : String) : Str := s.data

/-- Rust `str::trim_start_matches` with a non-empty pattern removes leading
occurrences of the pattern as long as one is present.  Each step removes at
least one character, so `s.length` steps always suffice: the fuel makes the
recursion structural. -/
def trimStartMatchesGo (pat : Str) : Nat → Str → Str
  | 0, s => s
  | fuel + 1, s =>
    if pat ≠ [] ∧ pat.isPrefixOf s then trimStartMatchesGo pat fuel (s.drop pat.length)
    else s

/-- Rust `str::trim_start_matches` for a string pattern: repeatedly removes
the pattern from the front while it is a prefix. -/
def trimStartMatches (pat s : Str) : Str := trimStartMatchesGo pat s.length s

/-- Rust `char::is_whitespace` (restricted to the ASCII whitespace that can
occur around a header value). -/
def isRustWhitespace (c : Char) : Bool := c.isWhitespace

/-- Rust `str::trim`: drop whitespace from both ends. -/
def rustTrim (s : Str) : Str :=
  ((s.dropWhile isRustWhitespace).reverse.dropWhile isRustWhitespace).reverse

/-- ASCII lower-casing of one character, for case-insensitive header names. -/
def asciiLower (c : Char) : Char :=
  if 'A' ≤ c ∧ c ≤ 'Z' then Char.ofNat (c.toNat + 32) else c

/-- Header names compare case-insensitively in the protocol Rocket serves. -/
def headerNameMatches (a b : Str) : Bool :=
  a.map asciiLower == b.map asciiLower

/-- `request.headers().get(name)`: every value carried under the (
case-insensitive) header `name`, in request order. -/
def headerValues (hdrs : List (Str × Str)) (name : Str) : List Str :=
  (hdrs.filter (fun kv => headerNameMatches kv.1 name)).map (fun kv => kv.2)

/-- `std::env::var name`: the process environment is read-only during request
handling, so a lookup in an association list. -/
def envVar (env : List (Str × Str)) (name : Str) : Option Str :=
  (env.find? (fun kv => kv.1 == name)).map (fun kv => kv.2)

/-- A JSON value, as the token payload carries it. -/
inductive Json where
  | null : Json
  | bool : Bool → Json
  | num : Int → Json
  | str : Str → Json
  | arr : List Json → Json
  | obj : List (Str × Json) → Json

/-- Field lookup in a JSON object; `none` on a non-object or an absent key. -/
def Json.getField : Json → Str → Option Json
  | .obj fs, k => (fs.find? (fun kv => kv.1 == k)).map (fun kv => kv.2)
  | _, _ => none

/-- serde: a JSON value read as a Rust `String`. -/
def Json.asStr : Json → Option Str
  | .str s => some s
  | _ => none

/-- serde: a JSON value read as a Rust `usize` (non-negative, below `2^64`). -/
def Json.asUsize : Json → Option Nat
  | .num n => if 0 ≤ n ∧ n < 2 ^ 64 then some n.toNat else none
  | _ => none

/-- serde: a JSON value read as a Rust `i64`. -/
def Json.asI64 : Json → Option Int
  | .num n => if -(2 ^ 63) ≤ n ∧ n < 2 ^ 63 then some n else none
  | _ => none

/-- serde: a JSON value read as a Rust `Vec<String>`. -/
def Json.asStrList : Json → Option (List Str)
  | .arr xs => xs.mapM Json.asStr
  | _ => none

/-- serde: an `Option<String>` struct field — absent or `null` is `none`, a
JSON string is `some`, anything else is a decode error. -/
def Json.getOptStrField (j : Json) (k : Str) : Option (Option Str) :=
  match j.getField k with
  | none => some none
  | some .null => some none
  | some (.str s) => some (some s)
  | some _ => none

/-- `pub struct ISCClaims` of `src/rocket_utils.rs`. -/
structure ISCClaims where
  sub : Str
  exp : Nat
  org_id : Str
  scopes : List Str
deriving DecidableEq

/-- `pub struct APIClaims` of `src/rocket_utils.rs`. -/
structure APIClaims where
  sub : Str
  exp : Nat
  group_id : Int
  scopes : List Str
deriving DecidableEq

/-- `pub struct Claims` of `src/rocket_utils.rs`. -/
structure Claims where
  sub : Str
  exp : Nat
  user_id : Str
  token_type : Str
  first_name : Option Str
  last_name : Option Str
  middle_name : Option Str
  client_id : Option Str
deriving DecidableEq

/-- `pub enum ISCClaimsError`. -/
inductive ISCClaimsError where
  | Missing : ISCClaimsError
  | Invalid : ISCClaimsError
deriving DecidableEq

/-- `pub enum APIClaimsError`. -/
inductive APIClaimsError where
  | Missing : APIClaimsError
  | Invalid : APIClaimsError
deriving DecidableEq

/-- `pub enum ClaimsError`. -/
inductive ClaimsError where
  | Missing : ClaimsError
  | Invalid : ClaimsError
deriving DecidableEq

/-- The shared shape of the three error enums, for the generic guard. -/
inductive GuardError where
  | Missing : GuardError
  | Invalid : GuardError
deriving DecidableEq

/-- `rocket::request::Outcome` as the guards use it, plus `panic` for the
abort that `.expect("JWT_SECRET must be set")` performs when the environment
binding is absent (a Rust panic, not a returned outcome). -/
inductive Outcome (C E : Type) where
  | success : C → Outcome C E
  | error : Nat → E → Outcome C E
  | panic : Str → Outcome C E

/-- `rocket::http::Status::Unauthorized`. -/
def unauthorized : Nat := 401

/-- serde deserialization of `ISCClaims` from the token payload:
`sub : String`, `exp : usize`, `org_id : String`, `scopes : Vec<String>`,
every field required. -/
def decodeISCClaims (j : Json) : Option ISCClaims :=
  ((j.getField (chars "sub")).bind Json.asStr).bind fun sub =>
  ((j.getField (chars "exp")).bind Json.asUsize).bind fun exp =>
  ((j.getField (chars "org_id")).bind Json.asStr).bind fun org_id =>
  ((j.getField (chars "scopes")).bind Json.asStrList).bind fun scopes =>
  some { sub := sub, exp := exp, org_id := org_id, scopes := scopes }

/-- serde deserialization of `APIClaims` from the token payload. -/
def decodeAPIClaims (j : Json) : Option APIClaims :=
  ((j.getField (chars "sub")).bind Json.asStr).bind fun sub =>
  ((j.getField (chars "exp")).bind Json.asUsize).bind fun exp =>
  ((j.getField (chars "group_id")).bind Json.asI64).bind fun group_id =>
  ((j.getField (chars "scopes")).bind Json.asStrList).bind fun scopes =>
  some { sub := sub, exp := exp, group_id := group_id, scopes := scopes }

/-- serde deserialization of `Claims` from the token payload: the four
required fields, then the four `Option<String>` fields. -/
def decodeClaims (j : Json) : Option Claims :=
  ((j.getField (chars "sub")).bind Json.asStr).bind fun sub =>
  ((j.getField (chars "exp")).bind Json.asUsize).bind fun exp =>
  ((j.getField (chars "user_id")).bind Json.asStr).bind fun user_id =>
  ((j.getField (chars "token_type")).bind Json.asStr).bind fun token_type =>
  (j.getOptStrField (chars "first_name")).bind fun first_name =>
  (j.getOptStrField (chars "last_name")).bind fun last_name =>
  (j.getOptStrField (chars "middle_name")).bind fun middle_name =>
  (j.getOptStrField (chars "client_id")).bind fun client_id =>
  some { sub := sub, exp := exp, user_id := user_id, token_type := token_type,
         first_name := first_name, last_name := last_name,
         middle_name := middle_name, client_id := client_id }

/-- Modelled from the spec: the algorithm a token's header declares.
`HS256` is HMAC-SHA256, the one algorithm `Validation::new` accepts here. -/
inductive Alg where
  | HS256 : Alg
  | HS384 : Alg
  | HS512 : Alg
  | RS256 : Alg
  | ES256 : Alg
deriving DecidableEq

/-- Modelled from the spec: a JSON Web Token as the external `jsonwebtoken`
crate sees it after wire deserialization — the declared header algorithm, the
claims payload and, idealizing HMAC as collision-free, the secret whose MAC
the signature is.  The signature verifies under a verification secret exactly
when the declared algorithm is the configured one and the secrets coincide. -/
structure Jwt where
  alg : Alg
  payload : Json
  key : Str

/-- Modelled from the spec: the registered `exp` claim of a payload, an
absolute epoch-seconds instant, as the validation step reads it. -/
def payloadExp (j : Json) : Option Nat :=
  (j.getField (chars "exp")).bind Json.asUsize

/-- Modelled from the spec: `jsonwebtoken::decode::<C>` with
`Validation::new(Algorithm::HS256)` — deserialize the token string, reject
any declared algorithm other than HMAC-SHA256, verify the MAC against the
configured secret, require an unexpired `exp` (the current instant must be
`≤ exp`), then deserialize the payload into the claims shape.  Every failure
collapses to `none`, as the guards match any `Err(_)`. -/
def jwtDecode {C : Type} (dec : Json → Option C) (parse : Str → Option Jwt)
    (now : Nat) (token secret : Str) : Option C :=
  match parse token with
  | none => none
  | some t =>
    if t.alg = Alg.HS256 ∧ t.key = secret then
      match payloadExp t.payload with
      | none => none
      | some e => if now ≤ e then dec t.payload else none
    else none

/-- `impl FromRequest for ISCClaims` (`src/rocket_utils.rs:42-60`): collect
the `X-API-Authorization` values, fail `Missing` unless there is exactly one,
strip `"Bearer "`, trim, read `JWT_SECRET`, decode as `ISCClaims`. -/
def ISCClaims.from_request (hdrs env : List (Str × Str))
    (parse : Str → Option Jwt) (now : Nat) : Outcome ISCClaims ISCClaimsError :=
  let keys := headerValues hdrs (chars "X-API-Authorization")
  if keys.length ≠ 1 then
    Outcome.error unauthorized ISCClaimsError.Missing
  else
    let token_str := rustTrim (trimStartMatches (chars "Bearer ") (keys.headD []))
    match envVar env (chars "JWT_SECRET") with
    | none => Outcome.panic (chars "JWT_SECRET must be set")
    | some secret =>
      match jwtDecode decodeISCClaims parse now token_str secret with
      | some c => Outcome.success c
      | none => Outcome.error unauthorized ISCClaimsError.Invalid

/-- `impl FromRequest for APIClaims` (`src/rocket_utils.rs:131-149`): same
skeleton, same `X-API-Authorization` header, `APIClaims` payload shape. -/
def APIClaims.from_request (hdrs env : List (Str × Str))
    (parse : Str → Option Jwt) (now : Nat) : Outcome APIClaims APIClaimsError :=
  let keys := headerValues hdrs (chars "X-API-Authorization")
  if keys.length ≠ 1 then
    Outcome.error unauthorized APIClaimsError.Missing
  else
    let token_str := rustTrim (trimStartMatches (chars "Bearer ") (keys.headD []))
    match envVar env (chars "JWT_SECRET") with
    | none => Outcome.panic (chars "JWT_SECRET must be set")
    | some secret =>
      match jwtDecode decodeAPIClaims parse now token_str secret with
      | some c => Outcome.success c
      | none => Outcome.error unauthorized APIClaimsError.Invalid

/-- `impl FromRequest for Claims` (`src/rocket_utils.rs:188-206`): same
skeleton, `Authorization` header, `Claims` payload shape. -/
def Claims.from_request (hdrs env : List (Str × Str))
    (parse : Str → Option Jwt) (now : Nat) : Outcome Claims ClaimsError :=
  let keys := headerValues hdrs (chars "Authorization")
  if keys.length ≠ 1 then
    Outcome.error unauthorized ClaimsError.Missing
  else
    let token_str := rustTrim (trimStartMatches (chars "Bearer ") (keys.headD []))
    match envVar env (chars "JWT_SECRET") with
    | none => Outcome.panic (chars "JWT_SECRET must be set")
    | some secret =>
      match jwtDecode decodeClaims parse now token_str secret with
      | some c => Outcome.success c
      | none => Outcome.error unauthorized ClaimsError.Invalid

/-- The one algorithm skeleton the three guards share, parameterized by the
header name consulted and the payload shape decoded (spec §9 design note). -/
def genericFromRequest {C : Type} (headerName : Str) (dec : Json → Option C)
    (hdrs env : List (Str × Str)) (parse : Str → Option Jwt) (now : Nat) :
    Outcome C GuardError :=
  let keys := headerValues hdrs headerName
  if keys.length ≠ 1 then
    Outcome.error unauthorized GuardError.Missing
  else
    let token_str := rustTrim (trimStartMatches (chars "Bearer ") (keys.headD []))
    match envVar env (chars "JWT_SECRET") with
    | none => Outcome.panic (chars "JWT_SECRET must be set")
    | some secret =>
      match jwtDecode dec parse now token_str secret with
      | some c => Outcome.success c
      | none => Outcome.error unauthorized GuardError.Invalid

/-- Rename the error component of an outcome. -/
def Outcome.mapErr {C E F : Type} (f : E → F) : Outcome C E → Outcome C F
  | .success c => .success c
  | .error s e => .error s (f e)
  | .panic m => .panic m

/-- The generic error names, as `ISCClaimsError` spells them. -/
def iscErrOf : GuardError → ISCClaimsError
  | .Missing => .Missing
  | .Invalid => .Invalid

/-- The generic error names, as `APIClaimsError` spells them. -/
def apiErrOf : GuardError → APIClaimsError
  | .Missing => .Missing
  | .Invalid => .Invalid

/-- The generic error names, as `ClaimsError` spells them. -/
def claimsErrOf : GuardError → ClaimsError
  | .Missing => .Missing
  | .Invalid => .Invalid

/-- The `"Bearer "`-strip-then-trim step applied to a located header value
(`keys[0].trim_start_matches("Bearer ").trim()`). -/
def stripBearerAndTrim (v : Str) : Str :=
  rustTrim (trimStartMatches (chars "Bearer ") v)


theorem isPrefixOf_append_self (p t : Str) : p.isPrefixOf (p ++ t) = true := by
  induction p with
  | nil => simp
  | cons a as ih => simp [List.isPrefixOf, ih]

theorem length_le_of_isPrefixOf (p s : Str) (h : p.isPrefixOf s = true) :
    p.length ≤ s.length := by
  induction p generalizing s with
  | nil => simp
  | cons a as ih =>
    cases s with
    | nil => simp [List.isPrefixOf] at h
    | cons b bs =>
      simp only [List.isPrefixOf, Bool.and_eq_true] at h
      simpa using ih bs h.2

theorem trimStartMatchesGo_succ (pat : Str) (fuel : Nat) (s : Str) :
    trimStartMatchesGo pat (fuel + 1) s =
      if pat ≠ [] ∧ pat.isPrefixOf s then trimStartMatchesGo pat fuel (s.drop pat.length)
      else s := rfl

theorem trimStartMatchesGo_nil (pat : Str) (fuel : Nat) :
    trimStartMatchesGo pat fuel [] = [] := by
  cases fuel with
  | zero => rfl
  | succ k =>
    rw [trimStartMatchesGo_succ]
    by_cases hp : pat = []
    · simp [hp]
    · have hpre : pat.isPrefixOf ([] : Str) = false := by
        cases pat with
        | nil => exact absurd rfl hp
        | cons a as => simp [List.isPrefixOf]
      simp [hp, hpre]

theorem trimStartMatchesGo_fuel (pat : Str) (f₁ : Nat) :
    ∀ (f₂ : Nat) (s : Str), s.length ≤ f₁ → s.length ≤ f₂ →
      trimStartMatchesGo pat f₁ s = trimStartMatchesGo pat f₂ s := by
  induction f₁ with
  | zero =>
    intro f₂ s h1 _
    have hs : s = [] := List.length_eq_zero.mp (Nat.le_zero.mp h1)
    subst hs
    rw [trimStartMatchesGo_nil, trimStartMatchesGo_nil]
  | succ k ih =>
    intro f₂ s h1 h2
    cases f₂ with
    | zero =>
      have hs : s = [] := List.length_eq_zero.mp (Nat.le_zero.mp h2)
      subst hs
      rw [trimStartMatchesGo_nil, trimStartMatchesGo_nil]
    | succ m =>
      rw [trimStartMatchesGo_succ, trimStartMatchesGo_succ]
      by_cases hc : pat ≠ [] ∧ pat.isPrefixOf s
      · rw [if_pos hc, if_pos hc]
        have hplen : 1 ≤ pat.length := by
          cases pat with
          | nil => exact absurd rfl hc.1
          | cons a as => simp
        have hdl : (s.drop pat.length).length = s.length - pat.length :=
          List.length_drop _ _
        have hk : (s.drop pat.length).length ≤ k := by rw [hdl]; omega
        have hm : (s.drop pat.length).length ≤ m := by
          rw [hdl]
          have := length_le_of_isPrefixOf pat s hc.2
          omega
        exact ih m (s.drop pat.length) hk hm
      · rw [if_neg hc, if_neg hc]

theorem trimStartMatches_append (pat t : Str) (hp : pat ≠ []) :
    trimStartMatches pat (pat ++ t) = trimStartMatches pat t := by
  unfold trimStartMatches
  cases pat with
  | nil => exact absurd rfl hp
  | cons a as =>
    have hlen : ((a :: as) ++ t).length = (as.length + t.length) + 1 := by
      simp [List.length_append]
    rw [hlen, trimStartMatchesGo_succ]
    have hc : (a :: as) ≠ [] ∧ (a :: as).isPrefixOf ((a :: as) ++ t) :=
      ⟨by simp, isPrefixOf_append_self (a :: as) t⟩
    rw [if_pos hc, List.drop_left]
    exact trimStartMatchesGo_fuel (a :: as) (as.length + t.length) t.length t
      (by omega) (Nat.le_refl _)

theorem stripBearerAndTrim_bearer (v : Str) :
    stripBearerAndTrim (chars "Bearer " ++ v) = stripBearerAndTrim v := by
  unfold stripBearerAndTrim
  rw [trimStartMatches_append (chars "Bearer ") v (by decide)]



theorem jwtDecode_eq_some {C : Type} (dec : Json → Option C) (parse : Str → Option Jwt)
    (now : Nat) (token secret : Str) (t : Jwt) (e : Nat) (c : C)
    (hp : parse token = some t) (halg : t.alg = Alg.HS256) (hkey : t.key = secret)
    (hexp : payloadExp t.payload = some e) (hle : now ≤ e)
    (hdec : dec t.payload = some c) :
    jwtDecode dec parse now token secret = some c := by
  simp only [jwtDecode, hp]
  rw [if_pos ⟨halg, hkey⟩]
  simp only [hexp]
  rw [if_pos hle, hdec]

theorem jwtDecode_expired {C : Type} (dec : Json → Option C) (parse : Str → Option Jwt)
    (now : Nat) (token secret : Str) (t : Jwt) (e : Nat)
    (hp : parse token = some t) (hexp : payloadExp t.payload = some e) (hlt : e < now) :
    jwtDecode dec parse now token secret = none := by
  simp only [jwtDecode, hp]
  by_cases hc : t.alg = Alg.HS256 ∧ t.key = secret
  · rw [if_pos hc]
    simp only [hexp]
    rw [if_neg (by omega)]
  · rw [if_neg hc]

theorem jwtDecode_wrong_key {C : Type} (dec : Json → Option C) (parse : Str → Option Jwt)
    (now : Nat) (token secret : Str) (t : Jwt)
    (hp : parse token = some t) (hk : t.key ≠ secret) :
    jwtDecode dec parse now token secret = none := by
  simp only [jwtDecode, hp]
  rw [if_neg (fun hc => hk hc.2)]

theorem jwtDecode_wrong_alg {C : Type} (dec : Json → Option C) (parse : Str → Option Jwt)
    (now : Nat) (token secret : Str) (t : Jwt)
    (hp : parse token = some t) (ha : t.alg ≠ Alg.HS256) :
    jwtDecode dec parse now token secret = none := by
  simp only [jwtDecode, hp]
  rw [if_neg (fun hc => ha hc.1)]

theorem jwtDecode_some_inv {C : Type} (dec : Json → Option C) (parse : Str → Option Jwt)
    (now : Nat) (token secret : Str) (c : C)
    (h : jwtDecode dec parse now token secret = some c) :
    ∃ t e, parse token = some t ∧ t.alg = Alg.HS256 ∧ t.key = secret ∧
      payloadExp t.payload = some e ∧ now ≤ e ∧ dec t.payload = some c := by
  unfold jwtDecode at h
  cases hp : parse token with
  | none => simp only [hp] at h; exact absurd h (by simp)
  | some t =>
    simp only [hp] at h
    by_cases hc : t.alg = Alg.HS256 ∧ t.key = secret
    · rw [if_pos hc] at h
      cases he : payloadExp t.payload with
      | none => simp only [he] at h; exact absurd h (by simp)
      | some e =>
        simp only [he] at h
        by_cases hle : now ≤ e
        · rw [if_pos hle] at h
          exact ⟨t, e, rfl, hc.1, hc.2, he, hle, h⟩
        · rw [if_neg hle] at h; exact absurd h (by simp)
    · rw [if_neg hc] at h; exact absurd h (by simp)

theorem jwtDecode_none_of_trivial {C : Type} (dec : Json → Option C)
    (parse : Str → Option Jwt) (now : Nat) (token secret : Str)
    (h : jwtDecode (fun _ => some PUnit.unit) parse now token secret = none) :
    jwtDecode dec parse now token secret = none := by
  unfold jwtDecode at h ⊢
  cases hp : parse token with
  | none => rfl
  | some t =>
    simp only [hp] at h ⊢
    by_cases hc : t.alg = Alg.HS256 ∧ t.key = secret
    · rw [if_pos hc] at h ⊢
      cases he : payloadExp t.payload with
      | none => rfl
      | some e =>
        simp only [he] at h ⊢
        by_cases hle : now ≤ e
        · rw [if_pos hle] at h
          exact absurd h (by simp)
        · rw [if_neg hle]
    · rw [if_neg hc]

theorem generic_missing {C : Type} (headerName : Str) (dec : Json → Option C)
    (hdrs env : List (Str × Str)) (parse : Str → Option Jwt) (now : Nat)
    (h : (headerValues hdrs headerName).length ≠ 1) :
    genericFromRequest headerName dec hdrs env parse now =
      Outcome.error unauthorized GuardError.Missing := by
  unfold genericFromRequest
  simp [h]

theorem generic_one {C : Type} (headerName : Str) (dec : Json → Option C)
    (hdrs env : List (Str × Str)) (parse : Str → Option Jwt) (now : Nat) (v : Str)
    (hv : headerValues hdrs headerName = [v]) :
    genericFromRequest headerName dec hdrs env parse now =
      match envVar env (chars "JWT_SECRET") with
      | none => Outcome.panic (chars "JWT_SECRET must be set")
      | some secret =>
        match jwtDecode dec parse now (stripBearerAndTrim v) secret with
        | some c => Outcome.success c
        | none => Outcome.error unauthorized GuardError.Invalid := by
  unfold genericFromRequest
  simp [hv, stripBearerAndTrim]

theorem generic_success_inv {C : Type} (headerName : Str) (dec : Json → Option C)
    (hdrs env : List (Str × Str)) (parse : Str → Option Jwt) (now : Nat) (c : C)
    (h : genericFromRequest headerName dec hdrs env parse now = Outcome.success c) :
    ∃ v secret t e, headerValues hdrs headerName = [v] ∧
      envVar env (chars "JWT_SECRET") = some secret ∧
      parse (stripBearerAndTrim v) = some t ∧ t.alg = Alg.HS256 ∧ t.key = secret ∧
      payloadExp t.payload = some e ∧ now ≤ e ∧ dec t.payload = some c := by
  by_cases hl : (headerValues hdrs headerName).length = 1
  · obtain ⟨v, hv⟩ := List.length_eq_one.mp hl
    rw [generic_one headerName dec hdrs env parse now v hv] at h
    cases henv : envVar env (chars "JWT_SECRET") with
    | none => simp only [henv] at h; exact absurd h (by simp)
    | some secret =>
      simp only [henv] at h
      cases hd : jwtDecode dec parse now (stripBearerAndTrim v) secret with
      | none => simp only [hd] at h; exact absurd h (by simp)
      | some c' =>
        simp only [hd, Outcome.success.injEq] at h
        subst h
        obtain ⟨t, e, h1, h2, h3, h4, h5, h6⟩ :=
          jwtDecode_some_inv dec parse now _ secret c' hd
        exact ⟨v, secret, t, e, hv, rfl, h1, h2, h3, h4, h5, h6⟩
  · rw [generic_missing headerName dec hdrs env parse now hl] at h
    exact absurd h (by simp)

theorem generic_eq_missing_iff {C : Type} (headerName : Str) (dec : Json → Option C)
    (hdrs env : List (Str × Str)) (parse : Str → Option Jwt) (now : Nat) :
    genericFromRequest headerName dec hdrs env parse now =
        Outcome.error unauthorized GuardError.Missing ↔
      (headerValues hdrs headerName).length ≠ 1 := by
  by_cases hl : (headerValues hdrs headerName).length = 1
  · obtain ⟨v, hv⟩ := List.length_eq_one.mp hl
    rw [generic_one headerName dec hdrs env parse now v hv]
    cases henv : envVar env (chars "JWT_SECRET") with
    | none => simp [henv, hl]
    | some secret =>
      simp only [henv]
      cases hd : jwtDecode dec parse now (stripBearerAndTrim v) secret with
      | none => simp [hd, hl]
      | some c => simp [hd, hl]
  · simp [generic_missing headerName dec hdrs env parse now hl, hl]



theorem isc_eq_generic (hdrs env : List (Str × Str)) (parse : Str → Option Jwt) (now : Nat) :
    ISCClaims.from_request hdrs env parse now =
      Outcome.mapErr iscErrOf
        (genericFromRequest (chars "X-API-Authorization") decodeISCClaims hdrs env parse now) := by
  unfold ISCClaims.from_request genericFromRequest
  by_cases h : (headerValues hdrs (chars "X-API-Authorization")).length ≠ 1
  · simp [h, Outcome.mapErr, iscErrOf]
  · simp only [h, if_false]
    cases henv : envVar env (chars "JWT_SECRET") with
    | none => simp [h, henv, Outcome.mapErr]
    | some secret =>
      simp only [h, henv]
      cases hd : jwtDecode decodeISCClaims parse now
          (rustTrim (trimStartMatches (chars "Bearer ")
            ((headerValues hdrs (chars "X-API-Authorization")).headD []))) secret with
      | none => simp [h, hd, Outcome.mapErr, iscErrOf]
      | some c => simp [h, hd, Outcome.mapErr]

theorem api_eq_generic (hdrs env : List (Str × Str)) (parse : Str → Option Jwt) (now : Nat) :
    APIClaims.from_request hdrs env parse now =
      Outcome.mapErr apiErrOf
        (genericFromRequest (chars "X-API-Authorization") decodeAPIClaims hdrs env parse now) := by
  unfold APIClaims.from_request genericFromRequest
  by_cases h : (headerValues hdrs (chars "X-API-Authorization")).length ≠ 1
  · simp [h, Outcome.mapErr, apiErrOf]
  · simp only [h, if_false]
    cases henv : envVar env (chars "JWT_SECRET") with
    | none => simp [h, henv, Outcome.mapErr]
    | some secret =>
      simp only [h, henv]
      cases hd : jwtDecode decodeAPIClaims parse now
          (rustTrim (trimStartMatches (chars "Bearer ")
            ((headerValues hdrs (chars "X-API-Authorization")).headD []))) secret with
      | none => simp [h, hd, Outcome.mapErr, apiErrOf]
      | some c => simp [h, hd, Outcome.mapErr]

theorem claims_eq_generic (hdrs env : List (Str × Str)) (parse : Str → Option Jwt) (now : Nat) :
    Claims.from_request hdrs env parse now =
      Outcome.mapErr claimsErrOf
        (genericFromRequest (chars "Authorization") decodeClaims hdrs env parse now) := by
  unfold Claims.from_request genericFromRequest
  by_cases h : (headerValues hdrs (chars "Authorization")).length ≠ 1
  · simp [h, Outcome.mapErr, claimsErrOf]
  · simp only [h, if_false]
    cases henv : envVar env (chars "JWT_SECRET") with
    | none => simp [h, henv, Outcome.mapErr]
    | some secret =>
      simp only [h, henv]
      cases hd : jwtDecode decodeClaims parse now
          (rustTrim (trimStartMatches (chars "Bearer ")
            ((headerValues hdrs (chars "Authorization")).headD []))) secret with
      | none => simp [h, hd, Outcome.mapErr, claimsErrOf]
      | some c => simp [h, hd, Outcome.mapErr]



theorem mapErr_success_iff {C E F : Type} (f : E → F) (x : Outcome C E) (c : C) :
    Outcome.mapErr f x = Outcome.success c ↔ x = Outcome.success c := by
  cases x <;> simp [Outcome.mapErr]

theorem isc_eq_missing_iff (hdrs env : List (Str × Str)) (parse : Str → Option Jwt) (now : Nat) :
    ISCClaims.from_request hdrs env parse now =
        Outcome.error unauthorized ISCClaimsError.Missing ↔
      (headerValues hdrs (chars "X-API-Authorization")).length ≠ 1 := by
  rw [isc_eq_generic]
  have hmap : ∀ x : Outcome ISCClaims GuardError,
      Outcome.mapErr iscErrOf x = Outcome.error unauthorized ISCClaimsError.Missing ↔
        x = Outcome.error unauthorized GuardError.Missing := by
    intro x
    cases x with
    | success c => simp [Outcome.mapErr]
    | panic m => simp [Outcome.mapErr]
    | error s e => cases e <;> simp [Outcome.mapErr, iscErrOf]
  rw [hmap, generic_eq_missing_iff]

theorem api_eq_missing_iff (hdrs env : List (Str × Str)) (parse : Str → Option Jwt) (now : Nat) :
    APIClaims.from_request hdrs env parse now =
        Outcome.error unauthorized APIClaimsError.Missing ↔
      (headerValues hdrs (chars "X-API-Authorization")).length ≠ 1 := by
  rw [api_eq_generic]
  have hmap : ∀ x : Outcome APIClaims GuardError,
      Outcome.mapErr apiErrOf x = Outcome.error unauthorized APIClaimsError.Missing ↔
        x = Outcome.error unauthorized GuardError.Missing := by
    intro x
    cases x with
    | success c => simp [Outcome.mapErr]
    | panic m => simp [Outcome.mapErr]
    | error s e => cases e <;> simp [Outcome.mapErr, apiErrOf]
  rw [hmap, generic_eq_missing_iff]

theorem claims_eq_missing_iff (hdrs env : List (Str × Str)) (parse : Str → Option Jwt) (now : Nat) :
    Claims.from_request hdrs env parse now =
        Outcome.error unauthorized ClaimsError.Missing ↔
      (headerValues hdrs (chars "Authorization")).length ≠ 1 := by
  rw [claims_eq_generic]
  have hmap : ∀ x : Outcome Claims GuardError,
      Outcome.mapErr claimsErrOf x = Outcome.error unauthorized ClaimsError.Missing ↔
        x = Outcome.error unauthorized GuardError.Missing := by
    intro x
    cases x with
    | success c => simp [Outcome.mapErr]
    | panic m => simp [Outcome.mapErr]
    | error s e => cases e <;> simp [Outcome.mapErr, claimsErrOf]
  rw [hmap, generic_eq_missing_iff]

theorem isc_success (hdrs env : List (Str × Str)) (parse : Str → Option Jwt) (now : Nat)
    (v secret : Str) (c : ISCClaims)
    (hv : headerValues hdrs (chars "X-API-Authorization") = [v])
    (henv : envVar env (chars "JWT_SECRET") = some secret)
    (hd : jwtDecode decodeISCClaims parse now (stripBearerAndTrim v) secret = some c) :
    ISCClaims.from_request hdrs env parse now = Outcome.success c := by
  rw [isc_eq_generic, generic_one _ _ _ _ _ _ v hv]
  simp only [henv, hd, Outcome.mapErr]

theorem isc_invalid (hdrs env : List (Str × Str)) (parse : Str → Option Jwt) (now : Nat)
    (v secret : Str)
    (hv : headerValues hdrs (chars "X-API-Authorization") = [v])
    (henv : envVar env (chars "JWT_SECRET") = some secret)
    (hd : jwtDecode decodeISCClaims parse now (stripBearerAndTrim v) secret = none) :
    ISCClaims.from_request hdrs env parse now =
      Outcome.error unauthorized ISCClaimsError.Invalid := by
  rw [isc_eq_generic, generic_one _ _ _ _ _ _ v hv]
  simp only [henv, hd, Outcome.mapErr, iscErrOf]

theorem isc_panics (hdrs env : List (Str × Str)) (parse : Str → Option Jwt) (now : Nat)
    (v : Str)
    (hv : headerValues hdrs (chars "X-API-Authorization") = [v])
    (henv : envVar env (chars "JWT_SECRET") = none) :
    ISCClaims.from_request hdrs env parse now =
      Outcome.panic (chars "JWT_SECRET must be set") := by
  rw [isc_eq_generic, generic_one _ _ _ _ _ _ v hv]
  simp only [henv, Outcome.mapErr]

theorem claims_success (hdrs env : List (Str × Str)) (parse : Str → Option Jwt) (now : Nat)
    (v secret : Str) (c : Claims)
    (hv : headerValues hdrs (chars "Authorization") = [v])
    (henv : envVar env (chars "JWT_SECRET") = some secret)
    (hd : jwtDecode decodeClaims parse now (stripBearerAndTrim v) secret = some c) :
    Claims.from_request hdrs env parse now = Outcome.success c := by
  rw [claims_eq_generic, generic_one _ _ _ _ _ _ v hv]
  simp only [henv, hd, Outcome.mapErr]

theorem claims_invalid (hdrs env : List (Str × Str)) (parse : Str → Option Jwt) (now : Nat)
    (v secret : Str)
    (hv : headerValues hdrs (chars "Authorization") = [v])
    (henv : envVar env (chars "JWT_SECRET") = some secret)
    (hd : jwtDecode decodeClaims parse now (stripBearerAndTrim v) secret = none) :
    Claims.from_request hdrs env parse now =
      Outcome.error unauthorized ClaimsError.Invalid := by
  rw [claims_eq_generic, generic_one _ _ _ _ _ _ v hv]
  simp only [henv, hd, Outcome.mapErr, claimsErrOf]

theorem claims_panics (hdrs env : List (Str × Str)) (parse : Str → Option Jwt) (now : Nat)
    (v : Str)
    (hv : headerValues hdrs (chars "Authorization") = [v])
    (henv : envVar env (chars "JWT_SECRET") = none) :
    Claims.from_request hdrs env parse now =
      Outcome.panic (chars "JWT_SECRET must be set") := by
  rw [claims_eq_generic, generic_one _ _ _ _ _ _ v hv]
  simp only [henv, Outcome.mapErr]

theorem api_invalid (hdrs env : List (Str × Str)) (parse : Str → Option Jwt) (now : Nat)
    (v secret : Str)
    (hv : headerValues hdrs (chars "X-API-Authorization") = [v])
    (henv : envVar env (chars "JWT_SECRET") = some secret)
    (hd : jwtDecode decodeAPIClaims parse now (stripBearerAndTrim v) secret = none) :
    APIClaims.from_request hdrs env parse now =
      Outcome.error unauthorized APIClaimsError.Invalid := by
  rw [api_eq_generic, generic_one _ _ _ _ _ _ v hv]
  simp only [henv, hd, Outcome.mapErr, apiErrOf]

theorem isc_success_inv (hdrs env : List (Str × Str)) (parse : Str → Option Jwt) (now : Nat)
    (c : ISCClaims) (h : ISCClaims.from_request hdrs env parse now = Outcome.success c) :
    ∃ v secret t e, headerValues hdrs (chars "X-API-Authorization") = [v] ∧
      envVar env (chars "JWT_SECRET") = some secret ∧
      parse (stripBearerAndTrim v) = some t ∧ t.alg = Alg.HS256 ∧ t.key = secret ∧
      payloadExp t.payload = some e ∧ now ≤ e ∧ decodeISCClaims t.payload = some c := by
  rw [isc_eq_generic] at h
  exact generic_success_inv _ _ _ _ _ _ _ ((mapErr_success_iff iscErrOf _ c).mp h)

theorem claims_success_inv (hdrs env : List (Str × Str)) (parse : Str → Option Jwt) (now : Nat)
    (c : Claims) (h : Claims.from_request hdrs env parse now = Outcome.success c) :
    ∃ v secret t e, headerValues hdrs (chars "Authorization") = [v] ∧
      envVar env (chars "JWT_SECRET") = some secret ∧
      parse (stripBearerAndTrim v) = some t ∧ t.alg = Alg.HS256 ∧ t.key = secret ∧
      payloadExp t.payload = some e ∧ now ≤ e ∧ decodeClaims t.payload = some c := by
  rw [claims_eq_generic] at h
  exact generic_success_inv _ _ _ _ _ _ _ ((mapErr_success_iff claimsErrOf _ c).mp h)



theorem decodeISCClaims_fields (j : Json) (c : ISCClaims)
    (h : decodeISCClaims j = some c) :
    (j.getField (chars "sub")).bind Json.asStr = some c.sub ∧
    (j.getField (chars "exp")).bind Json.asUsize = some c.exp ∧
    (j.getField (chars "org_id")).bind Json.asStr = some c.org_id ∧
    (j.getField (chars "scopes")).bind Json.asStrList = some c.scopes := by
  unfold decodeISCClaims at h
  rw [Option.bind_eq_some] at h
  obtain ⟨sub, h1, h⟩ := h
  rw [Option.bind_eq_some] at h
  obtain ⟨exp, h2, h⟩ := h
  rw [Option.bind_eq_some] at h
  obtain ⟨org_id, h3, h⟩ := h
  rw [Option.bind_eq_some] at h
  obtain ⟨scopes, h4, h⟩ := h
  simp only [Option.some.injEq] at h
  subst h
  exact ⟨h1, h2, h3, h4⟩

theorem decodeClaims_fields (j : Json) (c : Claims)
    (h : decodeClaims j = some c) :
    (j.getField (chars "sub")).bind Json.asStr = some c.sub ∧
    (j.getField (chars "exp")).bind Json.asUsize = some c.exp ∧
    (j.getField (chars "user_id")).bind Json.asStr = some c.user_id ∧
    (j.getField (chars "token_type")).bind Json.asStr = some c.token_type ∧
    j.getOptStrField (chars "first_name") = some c.first_name ∧
    j.getOptStrField (chars "last_name") = some c.last_name ∧
    j.getOptStrField (chars "middle_name") = some c.middle_name ∧
    j.getOptStrField (chars "client_id") = some c.client_id := by
  unfold decodeClaims at h
  rw [Option.bind_eq_some] at h
  obtain ⟨sub, h1, h⟩ := h
  rw [Option.bind_eq_some] at h
  obtain ⟨exp, h2, h⟩ := h
  rw [Option.bind_eq_some] at h
  obtain ⟨user_id, h3, h⟩ := h
  rw [Option.bind_eq_some] at h
  obtain ⟨token_type, h4, h⟩ := h
  rw [Option.bind_eq_some] at h
  obtain ⟨first_name, h5, h⟩ := h
  rw [Option.bind_eq_some] at h
  obtain ⟨last_name, h6, h⟩ := h
  rw [Option.bind_eq_some] at h
  obtain ⟨middle_name, h7, h⟩ := h
  rw [Option.bind_eq_some] at h
  obtain ⟨client_id, h8, h⟩ := h
  simp only [Option.some.injEq] at h
  subst h
  exact ⟨h1, h2, h3, h4, h5, h6, h7, h8⟩

theorem decodeISCClaims_exp (j : Json) (c : ISCClaims) (h : decodeISCClaims j = some c) :
    payloadExp j = some c.exp := by
  unfold payloadExp
  exact (decodeISCClaims_fields j c h).2.1

theorem decodeClaims_exp (j : Json) (c : Claims) (h : decodeClaims j = some c) :
    payloadExp j = some c.exp := by
  unfold payloadExp
  exact (decodeClaims_fields j c h).2.1



theorem generic_value_ext {C : Type} (headerName : Str) (dec : Json → Option C)
    (hdrs1 hdrs2 env : List (Str × Str)) (parse : Str → Option Jwt) (now : Nat)
    (v1 v2 : Str)
    (hv1 : headerValues hdrs1 headerName = [v1])
    (hv2 : headerValues hdrs2 headerName = [v2])
    (hstrip : stripBearerAndTrim v1 = stripBearerAndTrim v2) :
    genericFromRequest headerName dec hdrs1 env parse now =
      genericFromRequest headerName dec hdrs2 env parse now := by
  rw [generic_one _ _ _ _ _ _ v1 hv1, generic_one _ _ _ _ _ _ v2 hv2, hstrip]

theorem isc_value_ext (hdrs1 hdrs2 env : List (Str × Str)) (parse : Str → Option Jwt)
    (now : Nat) (v1 v2 : Str)
    (hv1 : headerValues hdrs1 (chars "X-API-Authorization") = [v1])
    (hv2 : headerValues hdrs2 (chars "X-API-Authorization") = [v2])
    (hstrip : stripBearerAndTrim v1 = stripBearerAndTrim v2) :
    ISCClaims.from_request hdrs1 env parse now = ISCClaims.from_request hdrs2 env parse now := by
  rw [isc_eq_generic, isc_eq_generic,
    generic_value_ext _ _ hdrs1 hdrs2 env parse now v1 v2 hv1 hv2 hstrip]

theorem api_value_ext (hdrs1 hdrs2 env : List (Str × Str)) (parse : Str → Option Jwt)
    (now : Nat) (v1 v2 : Str)
    (hv1 : headerValues hdrs1 (chars "X-API-Authorization") = [v1])
    (hv2 : headerValues hdrs2 (chars "X-API-Authorization") = [v2])
    (hstrip : stripBearerAndTrim v1 = stripBearerAndTrim v2) :
    APIClaims.from_request hdrs1 env parse now = APIClaims.from_request hdrs2 env parse now := by
  rw [api_eq_generic, api_eq_generic,
    generic_value_ext _ _ hdrs1 hdrs2 env parse now v1 v2 hv1 hv2 hstrip]

theorem claims_value_ext (hdrs1 hdrs2 env : List (Str × Str)) (parse : Str → Option Jwt)
    (now : Nat) (v1 v2 : Str)
    (hv1 : headerValues hdrs1 (chars "Authorization") = [v1])
    (hv2 : headerValues hdrs2 (chars "Authorization") = [v2])
    (hstrip : stripBearerAndTrim v1 = stripBearerAndTrim v2) :
    Claims.from_request hdrs1 env parse now = Claims.from_request hdrs2 env parse now := by
  rw [claims_eq_generic, claims_eq_generic,
    generic_value_ext _ _ hdrs1 hdrs2 env parse now v1 v2 hv1 hv2 hstrip]

theorem stripBearerAndTrim_double (v : Str) :
    stripBearerAndTrim (chars "Bearer Bearer " ++ v) = stripBearerAndTrim v := by
  have hsplit : chars "Bearer Bearer " ++ v = chars "Bearer " ++ (chars "Bearer " ++ v) := by
    have : chars "Bearer Bearer " = chars "Bearer " ++ chars "Bearer " := by decide
    rw [this, List.append_assoc]
  rw [hsplit, stripBearerAndTrim_bearer, stripBearerAndTrim_bearer]

theorem generic_invalid_inv {C : Type} (headerName : Str) (dec : Json → Option C)
    (hdrs env : List (Str × Str)) (parse : Str → Option Jwt) (now : Nat)
    (h : genericFromRequest headerName dec hdrs env parse now =
      Outcome.error unauthorized GuardError.Invalid) :
    ∃ v secret, headerValues hdrs headerName = [v] ∧
      envVar env (chars "JWT_SECRET") = some secret ∧
      jwtDecode dec parse now (stripBearerAndTrim v) secret = none := by
  by_cases hl : (headerValues hdrs headerName).length = 1
  · obtain ⟨v, hv⟩ := List.length_eq_one.mp hl
    rw [generic_one headerName dec hdrs env parse now v hv] at h
    cases henv : envVar env (chars "JWT_SECRET") with
    | none => simp only [henv] at h; exact absurd h (by simp)
    | some secret =>
      simp only [henv] at h
      cases hd : jwtDecode dec parse now (stripBearerAndTrim v) secret with
      | none => exact ⟨v, secret, hv, rfl, hd⟩
      | some c => simp only [hd] at h; exact absurd h (by simp)
  · rw [generic_missing headerName dec hdrs env parse now hl] at h
    simp only [Outcome.error.injEq] at h
    exact absurd h.2 (by simp)



/-- Concrete test secret for the witnesses below. -/
def wSecret : Str := chars "s3cr3t"

/-- A user-session token payload: the spec §8 concrete scenario
`{sub: "u1", exp: <future>, user_id: "u1", token_type: "access"}`. -/
def wPayloadA : Json := Json.obj
  [ (chars "sub", Json.str (chars "u1")),
    (chars "exp", Json.num 100),
    (chars "user_id", Json.str (chars "u1")),
    (chars "token_type", Json.str (chars "access")) ]

/-- An internal-service token payload. -/
def wPayloadX : Json := Json.obj
  [ (chars "sub", Json.str (chars "s1")),
    (chars "exp", Json.num 100),
    (chars "org_id", Json.str (chars "o1")),
    (chars "scopes", Json.arr [Json.str (chars "read")]) ]

/-- A well-signed user-session token. -/
def wJwtA : Jwt := { alg := Alg.HS256, payload := wPayloadA, key := wSecret }

/-- A well-signed internal-service token. -/
def wJwtX : Jwt := { alg := Alg.HS256, payload := wPayloadX, key := wSecret }

/-- `wPayloadA` decoded as `Claims`. -/
def wClaimsA : Claims :=
  { sub := chars "u1", exp := 100, user_id := chars "u1", token_type := chars "access",
    first_name := none, last_name := none, middle_name := none, client_id := none }

/-- `wPayloadX` decoded as `ISCClaims`. -/
def wClaimsX : ISCClaims :=
  { sub := chars "s1", exp := 100, org_id := chars "o1", scopes := [chars "read"] }

/-- A user-session token signed with a secret other than `wSecret`. -/
def wJwtB : Jwt := { alg := Alg.HS256, payload := wPayloadA, key := chars "other" }

/-- An internal-service token signed with a secret other than `wSecret`. -/
def wJwtE : Jwt := { alg := Alg.HS256, payload := wPayloadX, key := chars "other" }

/-- A user-session token whose header declares HMAC-SHA384, MAC over `wSecret`. -/
def wJwtC : Jwt := { alg := Alg.HS384, payload := wPayloadA, key := wSecret }

/-- An internal-service token whose header declares HMAC-SHA384, MAC over `wSecret`. -/
def wJwtF : Jwt := { alg := Alg.HS384, payload := wPayloadX, key := wSecret }

/-- A concrete wire deserialization for the witnesses: six token strings. -/
def wParse : Str → Option Jwt := fun s =>
  if s = chars "toka" then some wJwtA
  else if s = chars "tokx" then some wJwtX
  else if s = chars "tokb" then some wJwtB
  else if s = chars "toke" then some wJwtE
  else if s = chars "tokc" then some wJwtC
  else if s = chars "tokf" then some wJwtF
  else none

/-- The witness environment, binding `JWT_SECRET`. -/
def wEnv : List (Str × Str) := [(chars "JWT_SECRET", wSecret)]



/-- C1: For every request whose configured header (`Authorization` for
`Claims`, `X-API-Authorization` for `ISCClaims`) carries exactly one value,
where that value — after optional Bearer-prefix stripping and whitespace
trimming — is a token signed with the configured secret under HMAC-SHA256,
unexpired, and whose payload contains all of the variant's required fields
with the right types (the decode hypotheses), the guard returns `Success` and
the returned claims record equals the token's payload field-for-field. -/
theorem c1_single_valid_token_success
    (hdrs env : List (Str × Str)) (parse : Str → Option Jwt) (now : Nat)
    (secret vA vX : Str) (tA tX : Jwt) (cA : Claims) (cX : ISCClaims)
    (henv : envVar env (chars "JWT_SECRET") = some secret)
    (hA : headerValues hdrs (chars "Authorization") = [vA])
    (hX : headerValues hdrs (chars "X-API-Authorization") = [vX])
    (hpA : parse (stripBearerAndTrim vA) = some tA)
    (hpX : parse (stripBearerAndTrim vX) = some tX)
    (halgA : tA.alg = Alg.HS256) (hkeyA : tA.key = secret)
    (halgX : tX.alg = Alg.HS256) (hkeyX : tX.key = secret)
    (hdecA : decodeClaims tA.payload = some cA)
    (hdecX : decodeISCClaims tX.payload = some cX)
    (hexpA : now ≤ cA.exp) (hexpX : now ≤ cX.exp) :
    Claims.from_request hdrs env parse now = Outcome.success cA ∧
    ISCClaims.from_request hdrs env parse now = Outcome.success cX ∧
    (tA.payload.getField (chars "sub")).bind Json.asStr = some cA.sub ∧
    (tA.payload.getField (chars "exp")).bind Json.asUsize = some cA.exp ∧
    (tA.payload.getField (chars "user_id")).bind Json.asStr = some cA.user_id ∧
    (tA.payload.getField (chars "token_type")).bind Json.asStr = some cA.token_type ∧
    tA.payload.getOptStrField (chars "first_name") = some cA.first_name ∧
    tA.payload.getOptStrField (chars "last_name") = some cA.last_name ∧
    tA.payload.getOptStrField (chars "middle_name") = some cA.middle_name ∧
    tA.payload.getOptStrField (chars "client_id") = some cA.client_id ∧
    (tX.payload.getField (chars "sub")).bind Json.asStr = some cX.sub ∧
    (tX.payload.getField (chars "exp")).bind Json.asUsize = some cX.exp ∧
    (tX.payload.getField (chars "org_id")).bind Json.asStr = some cX.org_id ∧
    (tX.payload.getField (chars "scopes")).bind Json.asStrList = some cX.scopes := by
  obtain ⟨fA1, fA2, fA3, fA4, fA5, fA6, fA7, fA8⟩ := decodeClaims_fields tA.payload cA hdecA
  obtain ⟨fX1, fX2, fX3, fX4⟩ := decodeISCClaims_fields tX.payload cX hdecX
  refine ⟨?_, ?_, fA1, fA2, fA3, fA4, fA5, fA6, fA7, fA8, fX1, fX2, fX3, fX4⟩
  · exact claims_success hdrs env parse now vA secret cA hA henv
      (jwtDecode_eq_some decodeClaims parse now _ secret tA cA.exp cA hpA halgA hkeyA
        (decodeClaims_exp tA.payload cA hdecA) hexpA hdecA)
  · exact isc_success hdrs env parse now vX secret cX hX henv
      (jwtDecode_eq_some decodeISCClaims parse now _ secret tX cX.exp cX hpX halgX hkeyX
        (decodeISCClaims_exp tX.payload cX hdecX) hexpX hdecX)

/-- C1 witness: the spec §8 concrete scenario, both variants on one request,
evaluated at the concrete witness data. -/
theorem c1_witness :
    Claims.from_request
        [(chars "Authorization", chars "Bearer toka"), (chars "X-API-Authorization", chars "tokx")]
        wEnv wParse 5 = Outcome.success wClaimsA :=
  (c1_single_valid_token_success
    [(chars "Authorization", chars "Bearer toka"), (chars "X-API-Authorization", chars "tokx")]
    wEnv wParse 5 wSecret (chars "Bearer toka") (chars "tokx") wJwtA wJwtX wClaimsA wClaimsX
    rfl rfl rfl rfl rfl rfl rfl rfl rfl rfl rfl (by decide) (by decide)).1

/-- C2: whenever the configured header name has zero or two-or-more values,
the guard returns `Failure(Missing)`, regardless of the content of the values
— even when every individual value is a validly signed token. -/
theorem c2_ambiguous_or_absent_header_missing
    (hdrs env : List (Str × Str)) (parse : Str → Option Jwt) (now : Nat)
    (hcX : (headerValues hdrs (chars "X-API-Authorization")).length ≠ 1)
    (hcA : (headerValues hdrs (chars "Authorization")).length ≠ 1) :
    ISCClaims.from_request hdrs env parse now =
      Outcome.error unauthorized ISCClaimsError.Missing ∧
    APIClaims.from_request hdrs env parse now =
      Outcome.error unauthorized APIClaimsError.Missing ∧
    Claims.from_request hdrs env parse now =
      Outcome.error unauthorized ClaimsError.Missing :=
  ⟨(isc_eq_missing_iff hdrs env parse now).mpr hcX,
   (api_eq_missing_iff hdrs env parse now).mpr hcX,
   (claims_eq_missing_iff hdrs env parse now).mpr hcA⟩

/-- C2 witness: two `X-API-Authorization` values, both individually valid
tokens (the spec §8 two-value scenario), no `Authorization` value. -/
theorem c2_witness :
    ISCClaims.from_request
        [(chars "X-API-Authorization", chars "Bearer tokx"),
         (chars "X-API-Authorization", chars "Bearer tokx")]
        wEnv wParse 5 = Outcome.error unauthorized ISCClaimsError.Missing :=
  (c2_ambiguous_or_absent_header_missing
    [(chars "X-API-Authorization", chars "Bearer tokx"),
     (chars "X-API-Authorization", chars "Bearer tokx")]
    wEnv wParse 5 (by decide) (by decide)).1



/-- C3 counterexample: the claim says no per-request guard evaluation ever
observes an unbound secret.  In the code the secret is read lazily inside
`from_request` (`env::var("JWT_SECRET").expect(..)`), so a request carrying
exactly one `X-API-Authorization` value evaluated with no `JWT_SECRET`
binding reaches the secret lookup and aborts with the expect message — the
universal statement is false at this concrete input. -/
theorem c3_counterexample :
    ¬ (∀ (hdrs env : List (Str × Str)) (parse : Str → Option Jwt) (now : Nat) (m : Str),
        ISCClaims.from_request hdrs env parse now ≠ Outcome.panic m) := by
  intro h
  exact h [(chars "X-API-Authorization", chars "tokx")] [] wParse 0
    (chars "JWT_SECRET must be set") rfl

/-- C3 amended: absence of the `JWT_SECRET` binding is not checked at process
initialization; it surfaces as a per-request abort (the `expect` message)
exactly when a guard evaluation finds one configured-header value, while an
evaluation with zero or several values still returns `Missing` without
touching the secret.  The absence is never surfaced as a per-request
`Missing`-because-of-secret, `Invalid` or `Success` outcome. -/
theorem c3_amended_secret_absence_aborts_per_request
    (hdrs env : List (Str × Str)) (parse : Str → Option Jwt) (now : Nat)
    (henv : envVar env (chars "JWT_SECRET") = none) :
    ((headerValues hdrs (chars "X-API-Authorization")).length = 1 →
      ISCClaims.from_request hdrs env parse now =
        Outcome.panic (chars "JWT_SECRET must be set")) ∧
    ((headerValues hdrs (chars "X-API-Authorization")).length ≠ 1 →
      ISCClaims.from_request hdrs env parse now =
        Outcome.error unauthorized ISCClaimsError.Missing) ∧
    (∀ c, ISCClaims.from_request hdrs env parse now ≠ Outcome.success c) ∧
    ISCClaims.from_request hdrs env parse now ≠
      Outcome.error unauthorized ISCClaimsError.Invalid ∧
    ((headerValues hdrs (chars "Authorization")).length = 1 →
      Claims.from_request hdrs env parse now =
        Outcome.panic (chars "JWT_SECRET must be set")) ∧
    ((headerValues hdrs (chars "Authorization")).length ≠ 1 →
      Claims.from_request hdrs env parse now =
        Outcome.error unauthorized ClaimsError.Missing) ∧
    (∀ c, Claims.from_request hdrs env parse now ≠ Outcome.success c) ∧
    Claims.from_request hdrs env parse now ≠
      Outcome.error unauthorized ClaimsError.Invalid := by
  have hiscPanic : (headerValues hdrs (chars "X-API-Authorization")).length = 1 →
      ISCClaims.from_request hdrs env parse now =
        Outcome.panic (chars "JWT_SECRET must be set") := by
    intro hl
    obtain ⟨v, hv⟩ := List.length_eq_one.mp hl
    exact isc_panics hdrs env parse now v hv henv
  have hclaimsPanic : (headerValues hdrs (chars "Authorization")).length = 1 →
      Claims.from_request hdrs env parse now =
        Outcome.panic (chars "JWT_SECRET must be set") := by
    intro hl
    obtain ⟨v, hv⟩ := List.length_eq_one.mp hl
    exact claims_panics hdrs env parse now v hv henv
  refine ⟨hiscPanic, fun hl => (isc_eq_missing_iff hdrs env parse now).mpr hl, ?_, ?_,
    hclaimsPanic, fun hl => (claims_eq_missing_iff hdrs env parse now).mpr hl, ?_, ?_⟩
  · intro c
    by_cases hl : (headerValues hdrs (chars "X-API-Authorization")).length = 1
    · rw [hiscPanic hl]; simp
    · rw [(isc_eq_missing_iff hdrs env parse now).mpr hl]; simp
  · by_cases hl : (headerValues hdrs (chars "X-API-Authorization")).length = 1
    · rw [hiscPanic hl]; simp
    · rw [(isc_eq_missing_iff hdrs env parse now).mpr hl]; simp
  · intro c
    by_cases hl : (headerValues hdrs (chars "Authorization")).length = 1
    · rw [hclaimsPanic hl]; simp
    · rw [(claims_eq_missing_iff hdrs env parse now).mpr hl]; simp
  · by_cases hl : (headerValues hdrs (chars "Authorization")).length = 1
    · rw [hclaimsPanic hl]; simp
    · rw [(claims_eq_missing_iff hdrs env parse now).mpr hl]; simp

/-- C3 witness: one `X-API-Authorization` value and no secret bound: the
`ISCClaims` guard evaluation aborts with the expect message. -/
theorem c3_witness :
    ISCClaims.from_request [(chars "X-API-Authorization", chars "tokx")] [] wParse 0 =
      Outcome.panic (chars "JWT_SECRET must be set") :=
  (c3_amended_secret_absence_aborts_per_request
    [(chars "X-API-Authorization", chars "tokx")] [] wParse 0 rfl).1 (by decide)



/-- C4: a token correctly signed with the configured secret but whose `exp`
is strictly in the past (current time > exp, epoch seconds) is rejected with
`Failure(Invalid)` by both the `Claims` and the `ISCClaims` guard; and in
general a guard accepts only while the current instant is ≤ the `exp` of the
claims it returns. -/
theorem c4_expired_token_invalid
    (hdrs env : List (Str × Str)) (parse : Str → Option Jwt) (now : Nat)
    (secret vA vX : Str) (tA tX : Jwt) (eA eX : Nat)
    (henv : envVar env (chars "JWT_SECRET") = some secret)
    (hA : headerValues hdrs (chars "Authorization") = [vA])
    (hX : headerValues hdrs (chars "X-API-Authorization") = [vX])
    (hpA : parse (stripBearerAndTrim vA) = some tA)
    (hpX : parse (stripBearerAndTrim vX) = some tX)
    (halgA : tA.alg = Alg.HS256) (hkeyA : tA.key = secret)
    (halgX : tX.alg = Alg.HS256) (hkeyX : tX.key = secret)
    (hexpA : payloadExp tA.payload = some eA) (hltA : eA < now)
    (hexpX : payloadExp tX.payload = some eX) (hltX : eX < now) :
    Claims.from_request hdrs env parse now =
      Outcome.error unauthorized ClaimsError.Invalid ∧
    ISCClaims.from_request hdrs env parse now =
      Outcome.error unauthorized ISCClaimsError.Invalid ∧
    (∀ (hdrs' env' : List (Str × Str)) (parse' : Str → Option Jwt) (now' : Nat) (c : Claims),
      Claims.from_request hdrs' env' parse' now' = Outcome.success c → now' ≤ c.exp) ∧
    (∀ (hdrs' env' : List (Str × Str)) (parse' : Str → Option Jwt) (now' : Nat) (c : ISCClaims),
      ISCClaims.from_request hdrs' env' parse' now' = Outcome.success c → now' ≤ c.exp) := by
  refine ⟨?_, ?_, ?_, ?_⟩
  · exact claims_invalid hdrs env parse now vA secret hA henv
      (jwtDecode_expired decodeClaims parse now _ secret tA eA hpA hexpA hltA)
  · exact isc_invalid hdrs env parse now vX secret hX henv
      (jwtDecode_expired decodeISCClaims parse now _ secret tX eX hpX hexpX hltX)
  · intro hdrs' env' parse' now' c hsucc
    obtain ⟨v, s, t, e, _, _, _, _, _, hpe, hle, hdec⟩ :=
      claims_success_inv hdrs' env' parse' now' c hsucc
    have := decodeClaims_exp t.payload c hdec
    rw [this] at hpe
    have : e = c.exp := by
      have := hpe.symm
      simpa using this
    omega
  · intro hdrs' env' parse' now' c hsucc
    obtain ⟨v, s, t, e, _, _, _, _, _, hpe, hle, hdec⟩ :=
      isc_success_inv hdrs' env' parse' now' c hsucc
    have := decodeISCClaims_exp t.payload c hdec
    rw [this] at hpe
    have : e = c.exp := by
      have := hpe.symm
      simpa using this
    omega

/-- C4 witness: the valid witness tokens (`exp = 100`) evaluated at
`now = 200`: both guards answer `Invalid`. -/
theorem c4_witness :
    Claims.from_request
        [(chars "Authorization", chars "Bearer toka"), (chars "X-API-Authorization", chars "tokx")]
        wEnv wParse 200 = Outcome.error unauthorized ClaimsError.Invalid :=
  (c4_expired_token_invalid
    [(chars "Authorization", chars "Bearer toka"), (chars "X-API-Authorization", chars "tokx")]
    wEnv wParse 200 wSecret (chars "Bearer toka") (chars "tokx") wJwtA wJwtX 100 100
    rfl rfl rfl rfl rfl rfl rfl rfl rfl rfl (by decide) rfl (by decide)).1

/-- C5: a single configured-header value whose token was signed with any
secret different from the configured one is rejected with `Failure(Invalid)`
by both the `Claims` and the `ISCClaims` guard, whatever the payload. -/
theorem c5_wrong_secret_invalid
    (hdrs env : List (Str × Str)) (parse : Str → Option Jwt) (now : Nat)
    (secret vA vX : Str) (tA tX : Jwt)
    (henv : envVar env (chars "JWT_SECRET") = some secret)
    (hA : headerValues hdrs (chars "Authorization") = [vA])
    (hX : headerValues hdrs (chars "X-API-Authorization") = [vX])
    (hpA : parse (stripBearerAndTrim vA) = some tA)
    (hpX : parse (stripBearerAndTrim vX) = some tX)
    (hkA : tA.key ≠ secret) (hkX : tX.key ≠ secret) :
    Claims.from_request hdrs env parse now =
      Outcome.error unauthorized ClaimsError.Invalid ∧
    ISCClaims.from_request hdrs env parse now =
      Outcome.error unauthorized ISCClaimsError.Invalid :=
  ⟨claims_invalid hdrs env parse now vA secret hA henv
      (jwtDecode_wrong_key decodeClaims parse now _ secret tA hpA hkA),
   isc_invalid hdrs env parse now vX secret hX henv
      (jwtDecode_wrong_key decodeISCClaims parse now _ secret tX hpX hkX)⟩

/-- C5 witness: tokens MACed with the secret `"other"` while the configured
secret is `"s3cr3t"`; both guards answer `Invalid`. -/
theorem c5_witness :
    Claims.from_request
        [(chars "Authorization", chars "tokb"), (chars "X-API-Authorization", chars "toke")]
        wEnv wParse 5 = Outcome.error unauthorized ClaimsError.Invalid :=
  (c5_wrong_secret_invalid
    [(chars "Authorization", chars "tokb"), (chars "X-API-Authorization", chars "toke")]
    wEnv wParse 5 wSecret (chars "tokb") (chars "toke") wJwtB wJwtE
    rfl rfl rfl rfl rfl (by decide) (by decide)).1



/-- C6: verification uses exactly the one fixed symmetric algorithm
HMAC-SHA256: a token whose header declares any other algorithm is rejected
with `Failure(Invalid)` even when its MAC was produced with the correct
configured secret; and whenever a guard succeeds, the accepted token's
declared algorithm was HMAC-SHA256 — the algorithm is never negotiated per
request. -/
theorem c6_fixed_algorithm_hs256
    (hdrs env : List (Str × Str)) (parse : Str → Option Jwt) (now : Nat)
    (secret vA vX : Str) (tA tX : Jwt)
    (henv : envVar env (chars "JWT_SECRET") = some secret)
    (hA : headerValues hdrs (chars "Authorization") = [vA])
    (hX : headerValues hdrs (chars "X-API-Authorization") = [vX])
    (hpA : parse (stripBearerAndTrim vA) = some tA)
    (hpX : parse (stripBearerAndTrim vX) = some tX)
    (haA : tA.alg ≠ Alg.HS256) (hkeyA : tA.key = secret)
    (haX : tX.alg ≠ Alg.HS256) (hkeyX : tX.key = secret) :
    Claims.from_request hdrs env parse now =
      Outcome.error unauthorized ClaimsError.Invalid ∧
    ISCClaims.from_request hdrs env parse now =
      Outcome.error unauthorized ISCClaimsError.Invalid ∧
    (∀ (hdrs' env' : List (Str × Str)) (parse' : Str → Option Jwt) (now' : Nat)
        (v' secret' : Str) (t' : Jwt) (c : Claims),
      headerValues hdrs' (chars "Authorization") = [v'] →
      envVar env' (chars "JWT_SECRET") = some secret' →
      parse' (stripBearerAndTrim v') = some t' →
      Claims.from_request hdrs' env' parse' now' = Outcome.success c →
      t'.alg = Alg.HS256) ∧
    (∀ (hdrs' env' : List (Str × Str)) (parse' : Str → Option Jwt) (now' : Nat)
        (v' secret' : Str) (t' : Jwt) (c : ISCClaims),
      headerValues hdrs' (chars "X-API-Authorization") = [v'] →
      envVar env' (chars "JWT_SECRET") = some secret' →
      parse' (stripBearerAndTrim v') = some t' →
      ISCClaims.from_request hdrs' env' parse' now' = Outcome.success c →
      t'.alg = Alg.HS256) := by
  refine ⟨?_, ?_, ?_, ?_⟩
  · exact claims_invalid hdrs env parse now vA secret hA henv
      (jwtDecode_wrong_alg decodeClaims parse now _ secret tA hpA haA)
  · exact isc_invalid hdrs env parse now vX secret hX henv
      (jwtDecode_wrong_alg decodeISCClaims parse now _ secret tX hpX haX)
  · intro hdrs' env' parse' now' v' secret' t' c hv' henv' hp' hsucc
    obtain ⟨v, s, t, e, hv, hs, hp, halg, _, _, _, _⟩ :=
      claims_success_inv hdrs' env' parse' now' c hsucc
    have hvv : v = v' := by
      rw [hv] at hv'
      simpa using hv'
    subst hvv
    rw [hp'] at hp
    have htt : t' = t := by simpa using hp
    subst htt
    exact halg
  · intro hdrs' env' parse' now' v' secret' t' c hv' henv' hp' hsucc
    obtain ⟨v, s, t, e, hv, hs, hp, halg, _, _, _, _⟩ :=
      isc_success_inv hdrs' env' parse' now' c hsucc
    have hvv : v = v' := by
      rw [hv] at hv'
      simpa using hv'
    subst hvv
    rw [hp'] at hp
    have htt : t' = t := by simpa using hp
    subst htt
    exact halg

/-- C6 witness: tokens declaring HMAC-SHA384 but MACed with the configured
secret; the `Claims` guard answers `Invalid`. -/
theorem c6_witness :
    Claims.from_request
        [(chars "Authorization", chars "tokc"), (chars "X-API-Authorization", chars "tokf")]
        wEnv wParse 5 = Outcome.error unauthorized ClaimsError.Invalid :=
  (c6_fixed_algorithm_hs256
    [(chars "Authorization", chars "tokc"), (chars "X-API-Authorization", chars "tokf")]
    wEnv wParse 5 wSecret (chars "tokc") (chars "tokf") wJwtC wJwtF
    rfl rfl rfl rfl rfl (by decide) rfl (by decide) rfl).1

/-- C7: scheme-prefix leniency — a request whose single configured-header
value is `"Bearer " ++ t` and a request whose single value is the bare `t`
produce one and the same guard outcome (for the `Claims` and the `ISCClaims`
variant); in particular, when the token decodes, both yield the same
`Success` with identical decoded claims. -/
theorem c7_bearer_scheme_leniency
    (hdrsB hdrs env : List (Str × Str)) (parse : Str → Option Jwt) (now : Nat)
    (vA vX : Str)
    (hBA : headerValues hdrsB (chars "Authorization") = [chars "Bearer " ++ vA])
    (hA : headerValues hdrs (chars "Authorization") = [vA])
    (hBX : headerValues hdrsB (chars "X-API-Authorization") = [chars "Bearer " ++ vX])
    (hX : headerValues hdrs (chars "X-API-Authorization") = [vX]) :
    Claims.from_request hdrsB env parse now = Claims.from_request hdrs env parse now ∧
    ISCClaims.from_request hdrsB env parse now = ISCClaims.from_request hdrs env parse now ∧
    (∀ (secret : Str) (c : Claims),
      envVar env (chars "JWT_SECRET") = some secret →
      jwtDecode decodeClaims parse now (stripBearerAndTrim vA) secret = some c →
      Claims.from_request hdrsB env parse now = Outcome.success c ∧
      Claims.from_request hdrs env parse now = Outcome.success c) ∧
    (∀ (secret : Str) (c : ISCClaims),
      envVar env (chars "JWT_SECRET") = some secret →
      jwtDecode decodeISCClaims parse now (stripBearerAndTrim vX) secret = some c →
      ISCClaims.from_request hdrsB env parse now = Outcome.success c ∧
      ISCClaims.from_request hdrs env parse now = Outcome.success c) := by
  have heqA : Claims.from_request hdrsB env parse now = Claims.from_request hdrs env parse now :=
    claims_value_ext hdrsB hdrs env parse now _ vA hBA hA (stripBearerAndTrim_bearer vA)
  have heqX : ISCClaims.from_request hdrsB env parse now =
      ISCClaims.from_request hdrs env parse now :=
    isc_value_ext hdrsB hdrs env parse now _ vX hBX hX (stripBearerAndTrim_bearer vX)
  refine ⟨heqA, heqX, ?_, ?_⟩
  · intro secret c henv hd
    have hs : Claims.from_request hdrs env parse now = Outcome.success c :=
      claims_success hdrs env parse now vA secret c hA henv hd
    exact ⟨heqA.trans hs, hs⟩
  · intro secret c henv hd
    have hs : ISCClaims.from_request hdrs env parse now = Outcome.success c :=
      isc_success hdrs env parse now vX secret c hX henv hd
    exact ⟨heqX.trans hs, hs⟩

/-- C7 witness: `"Bearer toka"` and bare `"toka"` (resp. `"Bearer tokx"` /
`"tokx"`) give equal outcomes on the `Claims` guard. -/
theorem c7_witness :
    Claims.from_request
        [(chars "Authorization", chars "Bearer toka"), (chars "X-API-Authorization", chars "Bearer tokx")]
        wEnv wParse 5 =
      Claims.from_request
        [(chars "Authorization", chars "toka"), (chars "X-API-Authorization", chars "tokx")]
        wEnv wParse 5 :=
  (c7_bearer_scheme_leniency
    [(chars "Authorization", chars "Bearer toka"), (chars "X-API-Authorization", chars "Bearer tokx")]
    [(chars "Authorization", chars "toka"), (chars "X-API-Authorization", chars "tokx")]
    wEnv wParse 5 (chars "toka") (chars "tokx") rfl rfl rfl rfl).1



/-- C8: when the configured header appears zero times or more than once, the
guard answers `Failure(Missing)` before any verification step — in
particular the outcome is still `Missing`, and never the secret-lookup
abort, when the `JWT_SECRET` binding is absent: the secret-lookup branch is
unreachable for a header count other than one. -/
theorem c8_missing_decided_before_secret_lookup
    (hdrs env : List (Str × Str)) (parse : Str → Option Jwt) (now : Nat)
    (hc : (headerValues hdrs (chars "X-API-Authorization")).length ≠ 1)
    (henv : envVar env (chars "JWT_SECRET") = none) :
    ISCClaims.from_request hdrs env parse now =
      Outcome.error unauthorized ISCClaimsError.Missing ∧
    APIClaims.from_request hdrs env parse now =
      Outcome.error unauthorized APIClaimsError.Missing ∧
    (∀ m, ISCClaims.from_request hdrs env parse now ≠ Outcome.panic m) ∧
    (∀ m, APIClaims.from_request hdrs env parse now ≠ Outcome.panic m) := by
  have hisc := (isc_eq_missing_iff hdrs env parse now).mpr hc
  have hapi := (api_eq_missing_iff hdrs env parse now).mpr hc
  refine ⟨hisc, hapi, ?_, ?_⟩
  · intro m
    rw [hisc]
    simp
  · intro m
    rw [hapi]
    simp

/-- C8 witness: two `X-API-Authorization` values and no secret bound — the
`ISCClaims` guard still answers `Missing`, not the secret-lookup abort. -/
theorem c8_witness :
    ISCClaims.from_request
        [(chars "X-API-Authorization", chars "Bearer tokx"),
         (chars "X-API-Authorization", chars "Bearer tokx")]
        [] wParse 5 = Outcome.error unauthorized ISCClaimsError.Missing :=
  (c8_missing_decided_before_secret_lookup
    [(chars "X-API-Authorization", chars "Bearer tokx"),
     (chars "X-API-Authorization", chars "Bearer tokx")]
    [] wParse 5 (by decide) rfl).1

/-- C9: the three guard variants run one and the same locate–strip–verify
algorithm (`genericFromRequest`), differing only in the header name and the
claims shape decoded; `ISCClaims` and `APIClaims` (same header, same secret,
same HMAC-SHA256 validation) return `Failure(Missing)` for exactly the same
requests, and classify the same located credential identically up to
payload-shape decoding: whenever the pre-shape checks (locating, deserializing,
algorithm, signature, expiry) already fail — witnessed by the shape-blind
decoder `fun _ => some PUnit.unit` going `Invalid` — both answer `Invalid`. -/
theorem c9_variants_share_one_algorithm
    (hdrs env : List (Str × Str)) (parse : Str → Option Jwt) (now : Nat) :
    ISCClaims.from_request hdrs env parse now =
      Outcome.mapErr iscErrOf
        (genericFromRequest (chars "X-API-Authorization") decodeISCClaims hdrs env parse now) ∧
    APIClaims.from_request hdrs env parse now =
      Outcome.mapErr apiErrOf
        (genericFromRequest (chars "X-API-Authorization") decodeAPIClaims hdrs env parse now) ∧
    Claims.from_request hdrs env parse now =
      Outcome.mapErr claimsErrOf
        (genericFromRequest (chars "Authorization") decodeClaims hdrs env parse now) ∧
    (ISCClaims.from_request hdrs env parse now =
        Outcome.error unauthorized ISCClaimsError.Missing ↔
      APIClaims.from_request hdrs env parse now =
        Outcome.error unauthorized APIClaimsError.Missing) ∧
    (genericFromRequest (chars "X-API-Authorization") (fun _ => some PUnit.unit)
        hdrs env parse now = Outcome.error unauthorized GuardError.Invalid →
      ISCClaims.from_request hdrs env parse now =
        Outcome.error unauthorized ISCClaimsError.Invalid ∧
      APIClaims.from_request hdrs env parse now =
        Outcome.error unauthorized APIClaimsError.Invalid) := by
  refine ⟨isc_eq_generic hdrs env parse now, api_eq_generic hdrs env parse now,
    claims_eq_generic hdrs env parse now, ?_, ?_⟩
  · rw [isc_eq_missing_iff, api_eq_missing_iff]
  · intro h
    obtain ⟨v, secret, hv, henv, hd⟩ := generic_invalid_inv _ _ hdrs env parse now h
    exact ⟨isc_invalid hdrs env parse now v secret hv henv
        (jwtDecode_none_of_trivial decodeISCClaims parse now _ secret hd),
      api_invalid hdrs env parse now v secret hv henv
        (jwtDecode_none_of_trivial decodeAPIClaims parse now _ secret hd)⟩

/-- C10: the prefix-stripping step removes every leading repetition of the
literal `"Bearer "`: a single header value `"Bearer Bearer " ++ t` yields,
for each of the three guard variants, the same outcome as the bare value `t`
— in particular the same `Success` with identical claims when `t` is valid. -/
theorem c10_double_bearer_equals_bare
    (hdrsB hdrs env : List (Str × Str)) (parse : Str → Option Jwt) (now : Nat)
    (vA vX : Str)
    (hBA : headerValues hdrsB (chars "Authorization") = [chars "Bearer Bearer " ++ vA])
    (hA : headerValues hdrs (chars "Authorization") = [vA])
    (hBX : headerValues hdrsB (chars "X-API-Authorization") = [chars "Bearer Bearer " ++ vX])
    (hX : headerValues hdrs (chars "X-API-Authorization") = [vX]) :
    Claims.from_request hdrsB env parse now = Claims.from_request hdrs env parse now ∧
    ISCClaims.from_request hdrsB env parse now = ISCClaims.from_request hdrs env parse now ∧
    APIClaims.from_request hdrsB env parse now = APIClaims.from_request hdrs env parse now :=
  ⟨claims_value_ext hdrsB hdrs env parse now _ vA hBA hA (stripBearerAndTrim_double vA),
   isc_value_ext hdrsB hdrs env parse now _ vX hBX hX (stripBearerAndTrim_double vX),
   api_value_ext hdrsB hdrs env parse now _ vX hBX hX (stripBearerAndTrim_double vX)⟩

/-- C10 witness: `"Bearer Bearer toka"` and bare `"toka"` give equal
outcomes on the `Claims` guard. -/
theorem c10_witness :
    Claims.from_request
        [(chars "Authorization", chars "Bearer Bearer toka"),
         (chars "X-API-Authorization", chars "Bearer Bearer tokx")]
        wEnv wParse 5 =
      Claims.from_request
        [(chars "Authorization", chars "toka"), (chars "X-API-Authorization", chars "tokx")]
        wEnv wParse 5 :=
  (c10_double_bearer_equals_bare
    [(chars "Authorization", chars "Bearer Bearer toka"),
     (chars "X-API-Authorization", chars "Bearer Bearer tokx")]
    [(chars "Authorization", chars "toka"), (chars "X-API-Authorization", chars "tokx")]
    wEnv wParse 5 (chars "toka") (chars "tokx") rfl rfl rfl rfl).1


end GingerShared
